import Mathlib

/-
Shallow embedding of `src/proqueue.h` (namespace elh, class proqueue<T>).

The C++ class is a `std::queue<T>` (the value sequence) together with a
fixed array of ten optional callbacks (`std::array<std::function<void(T&)>, 10> tasks`),
a recursive mutex, a condition variable, a worker thread, and a boolean
`shutdown_required` initialised to `false`.

Modelling decisions, each tied to a line of the source:
* A callback `std::function<void(T&)>` is a closure that mutates its argument in
  place and may touch state it captured.  We model it as `T → E → T × E`, where
  `E` is the ambient (external) state the closure can read and write; the
  mutated value and the new ambient state are returned.
* The state `Proqueue T E` carries the queue contents (front of the C++ queue at
  the head of the list), the `tasks` array as a length-10 list of optional
  callbacks, `shutdown_required`, the ambient state `ext`, and two event
  counters instrumenting the synchronisation objects: `notify_count` counts the
  calls to `condition.notify_one()` and `join_count` the calls to
  `thread.join()`.  The source performs these calls only inside `stop()`.
* `std::queue::front/back/pop` on an empty queue are undefined behaviour in
  C++; the spec names this failure mode `EmptyQueueAccess`.  Following the
  embedding of partial operations, these return `Except QueueError _` and
  produce `QueueError.emptyQueueAccess` exactly on the empty queue.
* `std::array::at(i)` throws `std::out_of_range` when `i ≥ 10`; `add_callback`
  catches it and rethrows (the spec's `CapacityExceeded`), with no mutation
  (`at` bounds-checks before the assignment happens).  We model this as
  `Except QueueError _` with `QueueError.capacityExceeded`.
* The source text `tasks.at(tasks())` (constructor and `add_callback`) calls the
  data member `tasks` as a function, which is ill-formed C++; the only
  meaningful reading, which we adopt, is `tasks.at(tasks_count())`.
* The variadic constructor parameter pack `remaining` is never used by the
  constructor body; the model keeps the parameter and, faithfully, ignores it.
* `stop()` runs `condition.notify_one(); thread.join();` — it never writes
  `shutdown_required`, and indeed no statement in the file ever assigns that
  member, so it stays at its initialiser `false`.  The model's `stop` bumps the
  two event counters and leaves the flag alone.
* `push` runs `std::queue<T>::push(t)` only: no lock is taken and no notify is
  performed, which the model reflects (queue append, counters untouched).
-/

namespace elh

/-- The two recoverable error kinds named by the spec: `EmptyQueueAccess` for
`pop`/`front`/`back` on an empty sequence (undefined behaviour of the underlying
`std::queue`, surfaced as an error in the embedding) and `CapacityExceeded` for
registering into a full callback array (`std::out_of_range` from
`std::array::at`). -/
inductive QueueError where
  | emptyQueueAccess
  | capacityExceeded
deriving DecidableEq

/-- A registered callback: C++ `std::function<void(T&)>`, a closure mutating its
argument in place while possibly reading and writing ambient state of type `E`. -/
def Callback (T E : Type) : Type := T → E → T × E

/-- `static constexpr int MAX_TASK_SIZE { 10 }` — max size of functions. -/
def MAX_TASK_SIZE : Nat := 10

/-- State of one `elh::proqueue<T>` object, with the ambient state `ext` the
callbacks act on and event counters for the two synchronisation calls the
source makes (`condition.notify_one()` and `thread.join()`, both in `stop`). -/
structure Proqueue (T E : Type) : Type where
  queue : List T
  tasks : List (Option (Callback T E))
  shutdown_required : Bool
  notify_count : Nat
  join_count : Nat
  ext : E

variable {T E : Type}

/-- `tasks_count()`: `std::count_if` of the occupied slots of `tasks`. -/
def tasks_count (s : Proqueue T E) : Nat :=
  s.tasks.countP (fun f => f.isSome)

/-- `empty()` from `std::queue`. -/
def empty (s : Proqueue T E) : Bool := s.queue.isEmpty

/-- `size()` from `std::queue`. -/
def size (s : Proqueue T E) : Nat := s.queue.length

/-- `state_is_ready()`: `!shutdown_required && !empty()`. -/
def state_is_ready (s : Proqueue T E) : Bool :=
  !s.shutdown_required && !(empty s)

/-- The predicate of `condition.wait(lock, [this]{ return (!empty()) || shutdown_required; })`:
the worker's wait returns only in a state satisfying it. -/
def waitPred (s : Proqueue T E) : Bool :=
  !(empty s) || s.shutdown_required

/-- `front()` from `std::queue`: head of the sequence; undefined on the empty
queue, modelled as `EmptyQueueAccess`. -/
def front (s : Proqueue T E) : Except QueueError T :=
  match s.queue with
  | [] => .error .emptyQueueAccess
  | t :: _ => .ok t

/-- `back()` from `std::queue`: last element; undefined on the empty queue,
modelled as `EmptyQueueAccess`. -/
def back (s : Proqueue T E) : Except QueueError T :=
  match s.queue.getLast? with
  | none => .error .emptyQueueAccess
  | some t => .ok t

/-- `pop()`: takes the lock, then `std::queue<T>::pop()` removes the head;
undefined on the empty queue, modelled as `EmptyQueueAccess`. -/
def pop (s : Proqueue T E) : Except QueueError (Proqueue T E) :=
  match s.queue with
  | [] => .error .emptyQueueAccess
  | _ :: rest => .ok { s with queue := rest }

/-- `push(t)`: the body is exactly `std::queue<T>::push(t);` — an append at the
tail.  No lock is acquired and `condition` is not notified, so the event
counters are untouched. -/
def push (s : Proqueue T E) (t : T) : Proqueue T E :=
  { s with queue := s.queue ++ [t] }

/-- `add_callback(callback)`: under the lock, `tasks.at(tasks_count()) = callback`;
`std::array::at` throws `std::out_of_range` (the spec's `CapacityExceeded`)
when all `MAX_TASK_SIZE` slots are occupied, before any assignment happens, so
the failing case mutates nothing. -/
def add_callback (s : Proqueue T E) (callback : Callback T E) :
    Except QueueError (Proqueue T E) :=
  if tasks_count s < MAX_TASK_SIZE then
    .ok { s with tasks := s.tasks.set (tasks_count s) (some callback) }
  else
    .error .capacityExceeded

/-- The member initialisers of `proqueue`: empty queue, all ten `tasks` slots
empty (`std::function` default-constructs to empty), `shutdown_required = false`,
no synchronisation event yet. -/
def initial (e : E) : Proqueue T E :=
  { queue := []
    tasks := List.replicate MAX_TASK_SIZE none
    shutdown_required := false
    notify_count := 0
    join_count := 0
    ext := e }

/-- The variadic constructor `proqueue(const function_type& func, const Functions&... remaining)`:
its body is only `tasks.at(tasks_count()) = func;` — the pack `remaining` is
accepted but never used, so only `func` is registered. -/
def construct (func : Callback T E) (remaining : List (Callback T E)) (e : E) :
    Proqueue T E :=
  let s0 : Proqueue T E := initial e
  { s0 with tasks := s0.tasks.set (tasks_count s0) (some func) }

/-- `stop()`: the body is exactly `condition.notify_one(); thread.join();`.
It never assigns `shutdown_required` (no statement in the source file does), so
only the two event counters move. -/
def stop (s : Proqueue T E) : Proqueue T E :=
  { s with notify_count := s.notify_count + 1, join_count := s.join_count + 1 }

/-- The callback loop of `proc_one`: `for (auto& i : tasks) if (i) i(target);`.
`target` is a mutable reference, so each occupied slot sees the mutations made
by the earlier slots; empty slots do nothing. -/
def runTasks (ts : List (Option (Callback T E))) (t : T) (e : E) : T × E :=
  ts.foldl (fun acc f => match f with | some g => g acc.1 acc.2 | none => acc) (t, e)

/-- `proc_one()`: `auto& target = front(); for (auto& i : tasks) if (i) i(target); pop();`.
`front()` on the empty queue is the undefined access, modelled as the error;
otherwise every occupied callback runs on the (mutated-in-place) head value and
only then is the head removed. -/
def proc_one (s : Proqueue T E) : Except QueueError (Proqueue T E) :=
  match s.queue with
  | [] => .error .emptyQueueAccess
  | t :: rest => .ok { s with queue := rest, ext := (runTasks s.tasks t s.ext).2 }

/-- Denotation of the drain loop `while (!empty()) { proc_one(); }` of
`thread_work` on the queue contents: the ambient state after processing every
queued value in FIFO order.  (`proc_one` touches only `queue` and `ext`.) -/
def drainQueue (ts : List (Option (Callback T E))) : List T → E → E
  | [], e => e
  | t :: rest, e => drainQueue ts rest (runTasks ts t e).2

/-- The state after `thread_work`'s drain loop has consumed the whole backlog. -/
def drain (s : Proqueue T E) : Proqueue T E :=
  { s with queue := [], ext := drainQueue s.tasks s.queue s.ext }

/-- A sequence of producer `push` calls, in order. -/
def pushAll (s : Proqueue T E) (vs : List T) : Proqueue T E :=
  vs.foldl push s

/-- Modelled from the claims' words: the lowest-index empty slot of the
callback array, the "next free slot" the spec speaks of. -/
def lowestEmptySlot : List (Option (Callback T E)) → Option Nat
  | [] => none
  | none :: _ => some 0
  | some _ :: rest => (lowestEmptySlot rest).map (· + 1)

/-- A callback array whose occupied slots are exactly the prefix `fs`, the rest
empty — the shape every array reachable through the constructor and
`add_callback` has (slots are filled left to right and never vacated). -/
def tasksFilled (fs : List (Callback T E)) : List (Option (Callback T E)) :=
  fs.map some ++ List.replicate (MAX_TASK_SIZE - fs.length) none

/-- The occupied callbacks in slot order (empty slots skipped). -/
def occupied (ts : List (Option (Callback T E))) : List (Callback T E) :=
  ts.filterMap id

/-- Applying a list of callbacks in order, each exactly once, threading the
mutable value and the ambient state through the chain. -/
def applyEach (fs : List (Callback T E)) (t : T) (e : E) : T × E :=
  fs.foldl (fun acc f => f acc.1 acc.2) (t, e)

/-- States reachable through the public interface: a freshly constructed queue,
closed under `push`, successful `add_callback`, successful `pop`, the worker's
successful `proc_one`, and `stop`. -/
inductive Reachable : Proqueue T E → Prop where
  | construct (func : Callback T E) (remaining : List (Callback T E)) (e : E) :
      Reachable (construct func remaining e)
  | push {s : Proqueue T E} (t : T) : Reachable s → Reachable (push s t)
  | add_callback {s s2 : Proqueue T E} (f : Callback T E) :
      Reachable s → add_callback s f = .ok s2 → Reachable s2
  | pop {s s2 : Proqueue T E} : Reachable s → pop s = .ok s2 → Reachable s2
  | proc_one {s s2 : Proqueue T E} : Reachable s → proc_one s = .ok s2 → Reachable s2
  | stop {s : Proqueue T E} : Reachable s → Reachable (stop s)

/-- The queue of the header's usage example, `elh::proqueue<int>` with a
printing callback; we use the identity callback over a trivial ambient state
for concrete instances. -/
def idCb : Callback Nat Unit := fun t e => (t, e)

/-- A callback that appends its argument to an external log, the instrument of
the spec's FIFO property. -/
def logCb (T : Type) : Callback T (List T) := fun t log => (t, log ++ [t])

/-- The whole logging scenario: construct with the single logging callback,
push `vs` in order, let the worker drain the backlog. -/
def logRun (T : Type) (vs : List T) : Proqueue T (List T) :=
  drain (pushAll (construct (logCb T) [] []) vs)

/- ### Helper lemmas -/

theorem countP_isSome_map_some (fs : List (Callback T E)) :
    (fs.map some).countP (fun f => f.isSome) = fs.length := by
  induction fs with
  | nil => rfl
  | cons f fs ih => simp [List.countP_cons, ih]

theorem countP_isSome_replicate_none (n : Nat) :
    (List.replicate n (none : Option (Callback T E))).countP (fun f => f.isSome) = 0 := by
  induction n with
  | zero => rfl
  | succ n ih => simp [List.replicate_succ, List.countP_cons, ih]

theorem tasks_count_tasksFilled (fs : List (Callback T E)) :
    (tasksFilled fs).countP (fun f => f.isSome) = fs.length := by
  simp [tasksFilled, List.countP_append, countP_isSome_map_some,
    countP_isSome_replicate_none]

theorem set_append_cons {α : Type} (l1 : List α) (a b : α) (l2 : List α) :
    (l1 ++ a :: l2).set l1.length b = l1 ++ b :: l2 := by
  induction l1 with
  | nil => rfl
  | cons x l1 ih => simp [ih]

theorem tasksFilled_set (fs : List (Callback T E)) (f : Callback T E)
    (h : fs.length < MAX_TASK_SIZE) :
    (tasksFilled fs).set fs.length (some f) = tasksFilled (fs ++ [f]) := by
  have hd : MAX_TASK_SIZE - fs.length = (MAX_TASK_SIZE - (fs.length + 1)) + 1 := by
    have := h
    unfold MAX_TASK_SIZE at *
    omega
  have hl : fs.length = (fs.map some).length := by simp
  rw [tasksFilled, hd, List.replicate_succ, hl, set_append_cons]
  simp [tasksFilled, List.map_append]

theorem lowestEmptySlot_filled (fs : List (Callback T E))
    (rest : List (Option (Callback T E))) :
    lowestEmptySlot (fs.map some ++ none :: rest) = some fs.length := by
  induction fs with
  | nil => rfl
  | cons f fs ih => simp [lowestEmptySlot, ih]

theorem lowestEmptySlot_tasksFilled (fs : List (Callback T E))
    (h : fs.length < MAX_TASK_SIZE) :
    lowestEmptySlot (tasksFilled fs) = some fs.length := by
  have hd : MAX_TASK_SIZE - fs.length = (MAX_TASK_SIZE - (fs.length + 1)) + 1 := by
    unfold MAX_TASK_SIZE at *
    omega
  rw [tasksFilled, hd, List.replicate_succ, lowestEmptySlot_filled]

theorem pushAll_spec (vs : List T) (s : Proqueue T E) :
    pushAll s vs = { s with queue := s.queue ++ vs } := by
  induction vs generalizing s with
  | nil => simp [pushAll]
  | cons v vs ih =>
    have h1 : pushAll s (v :: vs) = pushAll (push s v) vs := rfl
    rw [h1, ih]
    simp [push]

/-- `drain` is the denotation of `while (!empty()) proc_one();`: on an empty
queue the loop exits at once. -/
theorem drain_of_empty (s : Proqueue T E) (h : s.queue = []) : drain s = s := by
  cases s with
  | mk q ts sd nc jc e =>
    simp only at h
    subst h
    rfl

/-- `drain` is the denotation of `while (!empty()) proc_one();`: on a non-empty
queue the loop runs `proc_one` once and continues. -/
theorem drain_proc_one (s s2 : Proqueue T E) (h : proc_one s = .ok s2) :
    drain s = drain s2 := by
  cases hq : s.queue with
  | nil => simp [proc_one, hq] at h
  | cons t rest =>
    simp only [proc_one, hq, Except.ok.injEq] at h
    subst h
    simp [drain, drainQueue, hq]

theorem runTasks_aux (ts : List (Option (Callback T E))) (acc : T × E) :
    ts.foldl (fun acc f => match f with | some g => g acc.1 acc.2 | none => acc) acc =
      (ts.filterMap id).foldl (fun acc f => f acc.1 acc.2) acc := by
  induction ts generalizing acc with
  | nil => rfl
  | cons f ts ih =>
    cases f with
    | none => simp [List.filterMap_cons, ih]
    | some g => simp [List.filterMap_cons, ih]

/-- The callback loop of `proc_one` applies exactly the occupied slots, in slot
order, each once, threading the mutable value; empty slots are skipped. -/
theorem runTasks_eq_applyEach (ts : List (Option (Callback T E))) (t : T) (e : E) :
    runTasks ts t e = applyEach (occupied ts) t e :=
  runTasks_aux ts (t, e)

theorem runTasks_logCb (t : T) (log : List T) :
    runTasks (construct (logCb T) [] ([] : List T)).tasks t log = (t, log ++ [t]) := rfl

theorem drainQueue_logCb (vs log : List T) :
    drainQueue (construct (logCb T) [] ([] : List T)).tasks vs log = log ++ vs := by
  induction vs generalizing log with
  | nil => simp [drainQueue]
  | cons v vs ih =>
    rw [drainQueue, runTasks_logCb, ih]
    simp

/-- `shutdown_required` is initialised `false` and no operation of the source
ever assigns it, so it is `false` in every reachable state. -/
theorem reachable_shutdown_false {s : Proqueue T E} (h : Reachable s) :
    s.shutdown_required = false := by
  induction h with
  | construct func remaining e => rfl
  | push t _ ih => exact ih
  | add_callback f _ hok ih =>
    simp only [add_callback] at hok
    split at hok
    · simp only [Except.ok.injEq] at hok
      subst hok
      exact ih
    · simp at hok
  | pop _ hok ih =>
    simp only [pop] at hok
    split at hok
    · simp at hok
    · simp only [Except.ok.injEq] at hok
      subst hok
      exact ih
  | proc_one _ hok ih =>
    simp only [proc_one] at hok
    split at hok
    · simp at hok
    · simp only [Except.ok.injEq] at hok
      subst hok
      exact ih
  | stop _ ih => exact ih

/- ### Claim theorems -/

/-- Claim C1 (code_bug evidence).  The claim says `stop()` sets the shared
shutdown flag to true before waking and joining the worker.  The source's
`stop()` is `condition.notify_one(); thread.join();` — it performs the
notify and the join but never writes `shutdown_required`; no statement in the
file ever assigns that member, so it keeps its initialiser `false`.  The
theorem shows: `stop` leaves the flag exactly as it was; on a freshly
constructed queue the flag is `false` and is still `false` after `stop`,
even though the notify and the join did happen. -/
theorem stop_does_not_set_shutdown_flag :
    (∀ (T E : Type) (s : Proqueue T E),
        (stop s).shutdown_required = s.shutdown_required) ∧
    (construct idCb [] ()).shutdown_required = false ∧
    (stop (construct idCb [] ())).shutdown_required = false ∧
    (stop (construct idCb [] ())).notify_count = 1 ∧
    (stop (construct idCb [] ())).join_count = 1 :=
  ⟨fun _ _ _ => rfl, rfl, rfl, rfl, rfl⟩

/-- Claim C2.  With the single logging callback registered at construction,
pushing `v1..vN` and letting the worker drain the backlog (`thread_work`
processes the head value through `proc_one` repeatedly, in FIFO order) leaves
the external log equal to `[v1, ..., vN]` — same order, each pushed value
exactly once — and the queue empty.  (The drain is modelled sequentially:
all pushes happen before the worker consumes the backlog; whether `stop()`
itself terminates is the subject of C1.) -/
theorem pushed_values_processed_in_order (T : Type) (vs : List T) :
    (logRun T vs).ext = vs ∧ (logRun T vs).queue = [] := by
  unfold logRun
  rw [pushAll_spec]
  exact ⟨by simpa using drainQueue_logCb vs ([] : List T), rfl⟩

/-- Claim C3 (code_bug evidence).  The claim says `push` appends to the tail,
always succeeds, holds the exclusive region only for the append plus
wake-signal, and notifies the wait/notify primitive.  The source's `push` body
is exactly `std::queue<T>::push(t);`: it does append to the tail and cannot
fail, but it takes no lock and performs no `condition.notify_one()` at all —
the notify counter is unchanged, so a worker blocked waiting for work is not
woken by a push. -/
theorem push_appends_without_notify :
    (∀ (T E : Type) (s : Proqueue T E) (v : T),
        (push s v).queue = s.queue ++ [v] ∧
        (push s v).notify_count = s.notify_count ∧
        (push s v).tasks = s.tasks ∧
        (push s v).shutdown_required = s.shutdown_required) ∧
    (push (construct idCb [] ()) 0).notify_count = 0 :=
  ⟨fun _ _ _ _ => ⟨rfl, rfl, rfl, rfl⟩, rfl⟩

/-- Claim C4.  On any registry whose occupied slots form a left-to-right
prefix `fs` — the shape the constructor produces and every successful
`add_callback` preserves —: if fewer than `MAX_TASK_SIZE` slots are occupied,
`add_callback f` succeeds and writes `f` precisely at the lowest-index empty
slot (which is `tasks_count s = fs.length`), keeping the filled-prefix shape;
if all ten are occupied, it fails with `CapacityExceeded` (the
`std::out_of_range` of `std::array::at`, raised before any assignment, so
nothing is mutated). -/
theorem add_callback_next_free_slot (s : Proqueue T E) (f : Callback T E)
    (fs : List (Callback T E)) (hts : s.tasks = tasksFilled fs)
    (hle : fs.length ≤ MAX_TASK_SIZE) :
    (fs.length < MAX_TASK_SIZE →
        lowestEmptySlot s.tasks = some fs.length ∧
        tasks_count s = fs.length ∧
        add_callback s f = .ok { s with tasks := s.tasks.set fs.length (some f) } ∧
        s.tasks.set fs.length (some f) = tasksFilled (fs ++ [f])) ∧
    (fs.length = MAX_TASK_SIZE →
        add_callback s f = .error .capacityExceeded) := by
  have hc : tasks_count s = fs.length := by
    rw [tasks_count, hts, tasks_count_tasksFilled]
  constructor
  · intro hlt
    refine ⟨?_, hc, ?_, ?_⟩
    · rw [hts]
      exact lowestEmptySlot_tasksFilled fs hlt
    · simp only [add_callback, hc, hlt, if_pos]
    · rw [hts]
      exact tasksFilled_set fs f hlt
  · intro heq
    have : ¬ tasks_count s < MAX_TASK_SIZE := by omega
    simp only [add_callback, this, if_neg, not_false_iff]

/-- Witness for C4: on the freshly constructed queue (one occupied slot), the
eleventh-capacity registry accepts a second callback at slot 1, the lowest
empty one. -/
theorem add_callback_next_free_slot_witness :
    lowestEmptySlot (construct idCb [] ()).tasks = some 1 ∧
    add_callback (construct idCb [] ()) idCb =
      .ok { construct idCb [] () with
              tasks := (construct idCb [] ()).tasks.set 1 (some idCb) } := by
  have h := (add_callback_next_free_slot (construct idCb [] ()) idCb [idCb]
    rfl (by decide)).1 (by decide)
  exact ⟨h.1, h.2.2.1⟩

/-- Claim C5 (code_bug evidence).  The claim says the variadic constructor
registers all supplied callbacks in argument order and fails with
`CapacityExceeded` for more than ten.  The source's constructor body is only
`tasks.at(tasks_count()) = func;` — the parameter pack `remaining` is never
used.  Constructing with two callbacks leaves exactly one occupied slot and
slot 1 empty; constructing with eleven callbacks still succeeds (no
`CapacityExceeded`) and registers only the first. -/
theorem construct_ignores_additional_callbacks :
    tasks_count (construct idCb [idCb] ()) = 1 ∧
    (construct idCb [idCb] ()).tasks.get? 1 = some none ∧
    tasks_count (construct idCb (List.replicate 10 idCb) ()) = 1 :=
  ⟨rfl, rfl, rfl⟩

/-- Claim C6.  `pop()` on an empty value sequence, and `front()`/`back()`
while the sequence is empty, all fail with `EmptyQueueAccess`, surfaced
synchronously to the caller (the underlying `std::queue` access is undefined
on the empty queue; the embedding surfaces that failure mode as the error the
spec names). -/
theorem empty_access_error (s : Proqueue T E) (h : s.queue = []) :
    pop s = .error .emptyQueueAccess ∧
    front s = .error .emptyQueueAccess ∧
    back s = .error .emptyQueueAccess := by
  refine ⟨?_, ?_, ?_⟩ <;> simp [pop, front, back, h]

/-- Witness for C6: the freshly constructed queue is empty and all three
accessors fail on it. -/
theorem empty_access_error_witness :
    pop (construct idCb [] ()) = .error .emptyQueueAccess ∧
    front (construct idCb [] ()) = .error .emptyQueueAccess ∧
    back (construct idCb [] ()) = .error .emptyQueueAccess :=
  empty_access_error (construct idCb [] ()) rfl

/-- Claim C7.  In every reachable state, whenever the worker of `thread_work`
reaches `proc_one()` — either because the pre-check `state_is_ready()` passed,
or because `condition.wait` returned (its predicate
`(!empty()) || shutdown_required` holds), or at the cleanup loop's `!empty()`
guard — the queue is non-empty, so `proc_one`'s `front()`/`pop()` never touch
an empty sequence and the `EmptyQueueAccess` failure is unreachable for the
worker.  (This rests on `shutdown_required` being `false` in every reachable
state, proved by `reachable_shutdown_false`.) -/
theorem worker_proc_one_never_empty (s : Proqueue T E) (h : Reachable s)
    (hentry : state_is_ready s = true ∨ waitPred s = true ∨ empty s = false) :
    ∃ s2, proc_one s = .ok s2 := by
  have hflag := reachable_shutdown_false h
  have hne : s.queue.isEmpty = false := by
    rcases hentry with h1 | h1 | h1
    · simpa [state_is_ready, empty, hflag] using h1
    · simpa [waitPred, empty, hflag] using h1
    · simpa [empty] using h1
  cases hq : s.queue with
  | nil => rw [hq] at hne; simp at hne
  | cons t rest =>
    refine ⟨{ s with queue := rest, ext := (runTasks s.tasks t s.ext).2 }, ?_⟩
    simp [proc_one, hq]

/-- Witness for C7: after one push on a fresh queue the worker's entry
condition holds and `proc_one` succeeds. -/
theorem worker_proc_one_never_empty_witness :
    ∃ s2, proc_one (push (construct idCb [] ()) 0) = .ok s2 :=
  worker_proc_one_never_empty (push (construct idCb [] ()) 0)
    (Reachable.push 0 (Reachable.construct idCb [] ())) (Or.inl rfl)

/-- Claim C8 (code_bug evidence).  The claim says `stop()` is idempotent: a
second `stop()` (or destruction after an explicit `stop()`, since the
destructor just calls `stop()`) must not join the worker thread a second time.
The source's `stop()` calls `thread.join()` unconditionally, so two calls join
twice — the join counter reaches 2 — and the flag is still never set. -/
theorem stop_twice_double_join :
    (∀ (T E : Type) (s : Proqueue T E),
        (stop (stop s)).join_count = s.join_count + 2 ∧
        (stop (stop s)).shutdown_required = s.shutdown_required) ∧
    (stop (stop (construct idCb [] ()))).join_count = 2 :=
  ⟨fun _ _ _ => ⟨rfl, rfl⟩, rfl⟩

/-- Claim C9.  For a dequeued value (the head `t` of the queue), `proc_one`
invokes exactly the occupied callback slots, in slot order, each exactly once
(`applyEach` folds over `occupied s.tasks`, the slots in order with the empty
ones skipped), threading the mutable reference — each callback sees the
mutations of the earlier ones — and only after all invocations is the value
removed from storage (`queue := rest`). -/
theorem proc_one_applies_occupied_in_order (s : Proqueue T E) (t : T)
    (rest : List T) (h : s.queue = t :: rest) :
    proc_one s =
      .ok { s with queue := rest,
                   ext := (applyEach (occupied s.tasks) t s.ext).2 } := by
  simp [proc_one, h, runTasks_eq_applyEach]

/-- Witness for C9: one pushed value on a fresh queue is processed through the
occupied slots and removed. -/
theorem proc_one_applies_occupied_in_order_witness :
    proc_one (push (construct idCb [] ()) 0) =
      .ok { push (construct idCb [] ()) 0 with
              queue := [],
              ext := (applyEach (occupied (push (construct idCb [] ()) 0).tasks) 0
                        (push (construct idCb [] ()) 0).ext).2 } :=
  proc_one_applies_occupied_in_order (push (construct idCb [] ()) 0) 0 [] rfl

/-- Claim C10 (frame property).  `push` changes neither the callback registry
nor the shutdown flag, and a successful `add_callback` changes neither the
pending value sequence nor the shutdown flag — it only writes the single slot
at index `tasks_count s`. -/
theorem frame_push_add_callback (s s2 : Proqueue T E) (v : T)
    (f : Callback T E) (h : add_callback s f = .ok s2) :
    (push s v).tasks = s.tasks ∧
    (push s v).shutdown_required = s.shutdown_required ∧
    s2.queue = s.queue ∧
    s2.shutdown_required = s.shutdown_required ∧
    s2.tasks = s.tasks.set (tasks_count s) (some f) := by
  refine ⟨rfl, rfl, ?_, ?_, ?_⟩ <;>
  · simp only [add_callback] at h
    split at h
    · simp only [Except.ok.injEq] at h
      subst h
      rfl
    · simp at h

/-- Witness for C10: one concrete successful `add_callback` after
construction. -/
theorem frame_push_add_callback_witness :
    (push (construct idCb [] ()) 0).tasks = (construct idCb [] ()).tasks ∧
    (push (construct idCb [] ()) 0).shutdown_required =
      (construct idCb [] ()).shutdown_required ∧
    ({ construct idCb [] () with
        tasks := (construct idCb [] ()).tasks.set 1 (some idCb) } :
          Proqueue Nat Unit).queue = (construct idCb [] ()).queue ∧
    ({ construct idCb [] () with
        tasks := (construct idCb [] ()).tasks.set 1 (some idCb) } :
          Proqueue Nat Unit).shutdown_required =
      (construct idCb [] ()).shutdown_required ∧
    ({ construct idCb [] () with
        tasks := (construct idCb [] ()).tasks.set 1 (some idCb) } :
          Proqueue Nat Unit).tasks =
      (construct idCb [] ()).tasks.set (tasks_count (construct idCb [] ()))
        (some idCb) :=
  frame_push_add_callback (construct idCb [] ())
    { construct idCb [] () with
        tasks := (construct idCb [] ()).tasks.set 1 (some idCb) } 0 idCb rfl

end elh
